import Mathlib

/-!
Verification development for the Generac MobileLync propane integration.

The definitions below are a shallow embedding of
custom_components/mobilelink_propane/api.py: Python strings are lists of
characters, JSON-shaped Python values are an inductive type, fallible
Python code returns Except, and the HTTP transport is a transcript of
per-step outcomes fed to the login state machine.
-/

namespace MobileLink

/-- View a literal as the character-list representation used for Python strings. -/
def sv (s : String) : List Char := s.toList

/-- Python runtime errors the modelled code can raise. -/
inductive PyErr where
  | typeError
  | valueError
  | attributeError
deriving DecidableEq, Repr

/-- Python values (the JSON-shaped data handled by the client). -/
inductive PyVal where
  | none
  | bool (b : Bool)
  | int (n : Int)
  | num (q : Rat)
  | str (s : List Char)
  | list (xs : List PyVal)
  | dict (kvs : List (PyVal × PyVal))

/-- Python truthiness of a value. -/
def pyTruthy : PyVal → Bool
  | .none => false
  | .bool b => b
  | .int n => !(n == 0)
  | .num q => !(q == 0)
  | .str s => !s.isEmpty
  | .list xs => !xs.isEmpty
  | .dict kvs => !kvs.isEmpty

/-- Numeric view shared by bool, int and float, as used by the Python == operator. -/
def numVal? : PyVal → Option Rat
  | .bool b => some (if b then 1 else 0)
  | .int n => some (n : Rat)
  | .num q => some q
  | _ => Option.none

/-- Python equality on hashable scalar values (dict keys and scalar comparisons):
numeric kinds compare by value, strings and None structurally, anything else unequal. -/
def pyScalarEq (a b : PyVal) : Bool :=
  match numVal? a, numVal? b with
  | some x, some y => x == y
  | _, _ =>
    match a, b with
    | .none, .none => true
    | .str s, .str t => s == t
    | _, _ => false

/-- Python comparison of a value with an int literal (the a.get of "type" != 2 test). -/
def pyEqInt (v : PyVal) (n : Int) : Bool :=
  match numVal? v with
  | some q => q == (n : Rat)
  | Option.none => false

/-- Whether a value may serve as a Python dict key. -/
def hashablePy : PyVal → Bool
  | .list _ => false
  | .dict _ => false
  | _ => true

/-- First binding of a key in an association-list dict. -/
def dictGet? : List (PyVal × PyVal) → PyVal → Option PyVal
  | [], _ => Option.none
  | (k, v) :: rest, key => if pyScalarEq k key then some v else dictGet? rest key

/-- Models d.get(key, default) on a dict value d given as its bindings. -/
def pyDictGet (kvs : List (PyVal × PyVal)) (key dflt : PyVal) : PyVal :=
  (dictGet? kvs key).getD dflt

/-- Models x.get(key, default): only a dict has a get method, anything else raises
AttributeError. -/
def pyGetD : PyVal → PyVal → PyVal → Except PyErr PyVal
  | .dict kvs, key, dflt => .ok (pyDictGet kvs key dflt)
  | _, _, _ => .error .attributeError

/-- Overwrite-or-append of a binding: an existing key keeps its place and its stored
key object, a new key goes to the end (Python dict insertion order). -/
def dictSetAux : List (PyVal × PyVal) → PyVal → PyVal → List (PyVal × PyVal)
  | [], key, v => [(key, v)]
  | (k, w) :: rest, key, v =>
    if pyScalarEq k key then (k, v) :: rest else (k, w) :: dictSetAux rest key v

/-- Models d[key] = value: an unhashable key raises TypeError. -/
def dictSet (kvs : List (PyVal × PyVal)) (key v : PyVal) :
    Except PyErr (List (PyVal × PyVal)) :=
  if hashablePy key then .ok (dictSetAux kvs key v) else .error .typeError

/-! ## The error classifier (api.py lines 13-40) -/

/-- Lowercasing as applied by the source before the indicator scan. -/
def pyLower (s : List Char) : List Char := s.map Char.toLower

/-- Executable contiguous-substring containment (the Python in operator on strings). -/
def containsSub (needle : List Char) : List Char → Bool
  | [] => needle.isEmpty
  | c :: rest => needle.isPrefixOf (c :: rest) || containsSub needle rest

/-- The fixed bot-protection indicator substrings of _looks_like_bot_block. -/
def botMarkers : List (List Char) :=
  [sv "incapsula", sv "captcha", sv "access denied", sv "request unsuccessful", sv "bot"]

/-- Models _looks_like_bot_block: case-insensitive substring match against the
fixed indicator set. -/
def _looks_like_bot_block (text : List Char) : Bool :=
  let t := pyLower text
  botMarkers.any (fun s => containsSub s t)

/-- The literal AADB2C that opens a provider error code. -/
def b2cPre : List Char := sv "AADB2C"

/-- Attempt to match the regex AADB2C\d{5} anchored at the head of s, returning the
matched code. -/
def b2cHere? (s : List Char) : Option (List Char) :=
  if b2cPre.isPrefixOf s then
    let ds := (s.drop 6).take 5
    if ds.length == 5 && ds.all Char.isDigit then some (b2cPre ++ ds) else Option.none
  else Option.none

/-- Leftmost search for the provider error code pattern (re.search). -/
def b2cScan : List Char → Option (List Char)
  | [] => Option.none
  | c :: rest =>
    match b2cHere? (c :: rest) with
    | some code => some code
    | Option.none => b2cScan rest

/-- Models _extract_b2c_error: falsy text short-circuits to None, otherwise the
first match of AADB2C followed by five digits. -/
def _extract_b2c_error (text : List Char) : Option (List Char) :=
  if text.isEmpty then Option.none else b2cScan text

/-- Models _map_b2c_error_to_code: the closed lookup table from provider codes to
the taxonomy, with the generic fallbacks of the source. -/
def _map_b2c_error_to_code (b2c_code : Option (List Char)) :
    List Char × Option (List Char) :=
  match b2c_code with
  | Option.none => (sv "unknown", Option.none)
  | some c =>
    if c.isEmpty then (sv "unknown", Option.none)
    else if c == sv "AADB2C90091" then (sv "access_denied", Option.none)
    else if c == sv "AADB2C90118" then
      (sv "password_reset_required", some (sv "Mobile Link requested a password reset"))
    else if c == sv "AADB2C90080" || c == sv "AADB2C90079" || c == sv "AADB2C90077" then
      (sv "account_locked", some (sv "Account may be locked or disabled"))
    else if c == sv "AADB2C90055" then (sv "invalid_credentials", Option.none)
    else (sv "b2c_error", some (sv "Azure B2C error " ++ c))

/-- The taxonomy codes the classifier can return (spec section 4.2). -/
def classifierCodes : List (List Char) :=
  [sv "unknown", sv "access_denied", sv "password_reset_required",
   sv "account_locked", sv "invalid_credentials", sv "b2c_error"]

/-- The provider codes present in the lookup table of the classifier. -/
def tableCodes : List (List Char) :=
  [sv "AADB2C90091", sv "AADB2C90118", sv "AADB2C90080", sv "AADB2C90079",
   sv "AADB2C90077", sv "AADB2C90055"]

/-- A provider error code exactly as the source regex matches it: the literal AADB2C
followed by exactly five digits. -/
def isB2CCode (code : List Char) : Bool :=
  code.length == 11 && b2cPre.isPrefixOf code && (code.drop 6).all Char.isDigit

/-- Follows the claim words for comparison: the provider code format read as the
literal AADB2C followed by six digits. -/
def isB2CCodeSpecSix (code : List Char) : Bool :=
  code.length == 12 && b2cPre.isPrefixOf code && (code.drop 6).all Char.isDigit

/-- Follows the claim words for comparison: anchored match of AADB2C plus six digits. -/
def b2cHereSpecSix? (s : List Char) : Option (List Char) :=
  if b2cPre.isPrefixOf s then
    let ds := (s.drop 6).take 6
    if ds.length == 6 && ds.all Char.isDigit then some (b2cPre ++ ds) else Option.none
  else Option.none

/-- Follows the claim words for comparison: leftmost search for a six-digit provider code. -/
def b2cScanSpecSix : List Char → Option (List Char)
  | [] => Option.none
  | c :: rest =>
    match b2cHereSpecSix? (c :: rest) with
    | some code => some code
    | Option.none => b2cScanSpecSix rest

/-! ## Numeric coercions (Python int() and float() as used by the normalizer) -/

/-- Whitespace as stripped by the Python numeric constructors. -/
def isPyWs (c : Char) : Bool :=
  c == ' ' || c == '\t' || c == '\n' || c == '\r' || c == '\x0c' || c == '\x0b'

/-- Strip whitespace at both ends. -/
def stripWs (s : List Char) : List Char :=
  ((s.dropWhile isPyWs).reverse.dropWhile isPyWs).reverse

/-- Value of a digit run. -/
def digitsVal (ds : List Char) : Nat :=
  ds.foldl (fun acc c => acc * 10 + (c.toNat - '0'.toNat)) 0

/-- Models int(s) on a string: optional surrounding whitespace, optional sign, one or
more decimal digits; anything else raises ValueError. -/
def pyParseInt? (s0 : List Char) : Option Int :=
  let s := stripWs s0
  match s with
  | '+' :: r => if !r.isEmpty && r.all Char.isDigit then some (digitsVal r : Int) else Option.none
  | '-' :: r => if !r.isEmpty && r.all Char.isDigit then some (-(digitsVal r : Int)) else Option.none
  | r => if !r.isEmpty && r.all Char.isDigit then some (digitsVal r : Int) else Option.none

/-- A Python float value as far as the model needs it. -/
inductive FloatVal where
  | finite (q : Rat)
  | inf (neg : Bool)
  | nan
deriving DecidableEq, Repr

/-- Mantissa and exponent of a float literal after the optional sign: digits with an
optional fractional part, then an optional exponent part. -/
def pyParseFloatMag? (s : List Char) : Option Rat :=
  let (ip, rest) := s.span Char.isDigit
  let (dotted, fp, rest2) :=
    match rest with
    | '.' :: r =>
      let (f, r2) := r.span Char.isDigit
      (true, f, r2)
    | _ => (false, ([] : List Char), rest)
  if ip.isEmpty && fp.isEmpty then Option.none
  else if !dotted && !ip.isEmpty && fp.isEmpty && rest2 == rest && !rest.isEmpty &&
          rest.head? != some 'e' && rest.head? != some 'E' then Option.none
  else
    let mant : Rat := ((digitsVal (ip ++ fp) : Int) : Rat) / ((10 : Rat) ^ fp.length)
    match rest2 with
    | [] => some mant
    | e :: r3 =>
      if e == 'e' || e == 'E' then
        let (eneg, r4) :=
          match r3 with
          | '+' :: r5 => (false, r5)
          | '-' :: r5 => (true, r5)
          | r5 => (false, r5)
        if !r4.isEmpty && r4.all Char.isDigit then
          let ex : Int := if eneg then -(digitsVal r4 : Int) else (digitsVal r4 : Int)
          some (mant * (10 : Rat) ^ ex)
        else Option.none
      else Option.none

/-- Models float(s) on a string: stripped, optionally signed, either an inf or nan
word or a decimal literal with optional exponent. -/
def pyParseFloat? (s0 : List Char) : Option FloatVal :=
  let s := stripWs s0
  let (neg, r) :=
    match s with
    | '+' :: r => (false, r)
    | '-' :: r => (true, r)
    | r => (false, r)
  if s.isEmpty then Option.none
  else
    let low := pyLower r
    if low == sv "inf" || low == sv "infinity" then some (.inf neg)
    else if low == sv "nan" then some FloatVal.nan
    else
      match pyParseFloatMag? r with
      | some q => some (.finite (if neg then -q else q))
      | Option.none => Option.none

/-- Truncation toward zero, the rounding of Python int() on a float. -/
def ratTrunc (q : Rat) : Int :=
  if q < 0 then -((-q).floor) else q.floor

/-- Models the Python int(x) conversion as applied to an apparatusId value. -/
def pyIntConv : PyVal → Except PyErr Int
  | .none => .error .typeError
  | .bool b => .ok (if b then 1 else 0)
  | .int n => .ok n
  | .num q => .ok (ratTrunc q)
  | .str s =>
    match pyParseInt? s with
    | some n => .ok n
    | Option.none => .error .valueError
  | .list _ => .error .typeError
  | .dict _ => .error .typeError

/-- Models the fuel level coercion: float(raw) if raw is not None else None, with
TypeError and ValueError caught and degraded to None. -/
def fuelFloat : PyVal → Option FloatVal
  | .none => Option.none
  | .bool b => some (.finite (if b then 1 else 0))
  | .int n => some (.finite (n : Rat))
  | .num q => some (.finite (q : Rat))
  | .str s => pyParseFloat? s
  | .list _ => Option.none
  | .dict _ => Option.none

/-! ## Python str() rendering, used for the name and capacity fields -/

/-- Decimal digits of a natural number. -/
def natDigits (n : Nat) : List Char := Nat.toDigits 10 n

/-- Decimal rendering of an integer. -/
def renderInt (n : Int) : List Char :=
  if n < 0 then '-' :: natDigits n.natAbs else natDigits n.natAbs

/-- Smallest k at most the fuel bound with q * 10 ^ k integral. -/
def findScaleAux (q : Rat) : Nat → Nat → Option Nat
  | k, 0 => if (q * (10 : Rat) ^ k).den == 1 then some k else Option.none
  | k, fuel + 1 =>
    if (q * (10 : Rat) ^ k).den == 1 then some k else findScaleAux q (k + 1) fuel

/-- Decimal rendering of a float value (terminating decimals; a fraction fallback
for denominators outside the scale bound, which no parsed input produces). -/
def renderFloat (q : Rat) : List Char :=
  let sign : List Char := if q < 0 then ['-'] else []
  let aq : Rat := |q|
  match findScaleAux aq 0 60 with
  | some 0 => sign ++ natDigits aq.num.natAbs ++ sv ".0"
  | some k =>
    let scaled := (aq * (10 : Rat) ^ k).num.natAbs
    let ds := natDigits scaled
    let ds := if ds.length < k + 1 then List.replicate (k + 1 - ds.length) '0' ++ ds else ds
    ds.take (ds.length - k) ++ '.' :: ds.drop (ds.length - k)
  | Option.none => sign ++ natDigits aq.num.natAbs ++ '/' :: natDigits aq.den

/-- Comma-space join of rendered items. -/
def commaJoin : List (List Char) → List Char
  | [] => []
  | [x] => x
  | x :: xs => x ++ sv ", " ++ commaJoin xs

/-- Python repr rendering, fuelled by nesting depth (Python itself bounds nesting by
its recursion limit); string escaping inside repr quotes is not reproduced. -/
def pyReprD : Nat → PyVal → List Char
  | _, .none => sv "None"
  | _, .bool b => if b then sv "True" else sv "False"
  | _, .int n => renderInt n
  | _, .num q => renderFloat q
  | _, .str s => '\x27' :: s ++ ['\x27']
  | 0, .list _ => sv "[...]"
  | d + 1, .list xs => '[' :: commaJoin (xs.map (pyReprD d)) ++ [']']
  | 0, .dict _ => sv "\x7b...\x7d"
  | d + 1, .dict kvs =>
    '\x7b' :: commaJoin (kvs.map (fun kv => pyReprD d kv.1 ++ sv ": " ++ pyReprD d kv.2)) ++ ['\x7d']

/-- Models the Python str() conversion. -/
def pyStr : PyVal → List Char
  | .str s => s
  | v => pyReprD 1000 v

/-! ## The telemetry normalizer (api.py lines 283-329) -/

/-- Modelled from the spec: the TankDeviceInfo dataclass is used by the source but
its defining file is absent from the sources; fields follow section 3 of the spec
(nested device record with device_id, device_type, battery_level, status, all
optional). -/
structure TankDeviceInfo where
  device_id : Option PyVal
  device_type : Option PyVal
  battery_level : Option PyVal
  status : Option PyVal

/-- Modelled from the spec: the PropaneTank dataclass is used by the source but its
defining file is absent from the sources; fields follow section 3 of the spec. -/
structure PropaneTank where
  apparatus_id : Int
  name : List Char
  fuel_level_percent : Option FloatVal
  last_reading : Option PyVal
  capacity_gallons : Option (List Char)
  is_connected : Option PyVal
  device : TankDeviceInfo

/-- A Python None becomes an absent field value. -/
def optOf : PyVal → Option PyVal
  | .none => Option.none
  | v => some v

/-- Models the iteration protocol of a Python for loop: lists yield their elements,
strings yield one-character strings, dicts yield their keys, anything else raises
TypeError. -/
def pyIter : PyVal → Except PyErr (List PyVal)
  | .list xs => .ok xs
  | .str s => .ok (s.map (fun c => .str [c]))
  | .dict kvs => .ok (kvs.map Prod.fst)
  | _ => .error .typeError

/-- One pass of the _props_dict loop body over a property entry p: read its name,
and when the name is truthy store its value under it. -/
def propsStep (props : List (PyVal × PyVal)) (p : PyVal) : Except PyErr (List (PyVal × PyVal)) :=
  match pyGetD p (.str (sv "name")) .none with
  | .error e => .error e
  | .ok name =>
    if pyTruthy name then
      match pyGetD p (.str (sv "value")) .none with
      | .error e => .error e
      | .ok v => dictSet props name v
    else .ok props

/-- Models MobileLinkApiClient._props_dict: flatten the properties list into a
name-to-value dict, skipping entries with a falsy name. -/
def _props_dict (apparatus : PyVal) : Except PyErr (List (PyVal × PyVal)) :=
  match pyGetD apparatus (.str (sv "properties")) (.list []) with
  | .error e => .error e
  | .ok raw =>
    match pyIter (if pyTruthy raw then raw else .list []) with
    | .error e => .error e
    | .ok elems => elems.foldlM propsStep []

/-- Models device_obj.get(k) if isinstance(device_obj, dict) else None. -/
def devField (device_obj : PyVal) (k : List Char) : PyVal :=
  match device_obj with
  | .dict kvs => pyDictGet kvs (.str k) .none
  | _ => .none

/-- Models the loop body of discover_propane_tanks for one record whose type code
matched 2, in source evaluation order. -/
def tankOf (a : PyVal) : Except PyErr PropaneTank :=
  match _props_dict a with
  | .error e => .error e
  | .ok props =>
    let device_obj0 := pyDictGet props (.str (sv "Device")) .none
    let device_obj := if pyTruthy device_obj0 then device_obj0 else .dict []
    let device : TankDeviceInfo :=
      { device_id := optOf (devField device_obj (sv "deviceId")),
        device_type := optOf (devField device_obj (sv "deviceType")),
        battery_level := optOf (devField device_obj (sv "batteryLevel")),
        status := optOf (devField device_obj (sv "status")) }
    let percent := fuelFloat (pyDictGet props (.str (sv "FuelLevel")) .none)
    match pyGetD a (.str (sv "apparatusId")) .none with
    | .error e => .error e
    | .ok idRaw =>
      match pyIntConv idRaw with
      | .error e => .error e
      | .ok aid =>
        match pyGetD a (.str (sv "name")) .none with
        | .error e => .error e
        | .ok nameRaw =>
          let nameV := if pyTruthy nameRaw then nameRaw else .str (sv "Tank " ++ pyStr idRaw)
          let capRaw := pyDictGet props (.str (sv "Capacity")) .none
          match pyGetD a (.str (sv "isConnected")) .none with
          | .error e => .error e
          | .ok isConn =>
            .ok
              { apparatus_id := aid,
                name := pyStr nameV,
                fuel_level_percent := percent,
                last_reading := optOf (pyDictGet props (.str (sv "LastReading")) .none),
                capacity_gallons :=
                  (match capRaw with | .none => Option.none | v => some (pyStr v)),
                is_connected := optOf isConn,
                device := device }

/-- Models discover_propane_tanks on the raw apparatus list (the body returned by
list_apparatus): keep records whose type equals 2, in order. -/
def discover_propane_tanks : List PyVal → Except PyErr (List PropaneTank)
  | [] => .ok []
  | a :: rest =>
    match pyGetD a (.str (sv "type")) .none with
    | .error e => .error e
    | .ok ty =>
      if pyEqInt ty 2 then
        match tankOf a with
        | .error e => .error e
        | .ok t =>
          match discover_propane_tanks rest with
          | .error e => .error e
          | .ok ts => .ok (t :: ts)
      else discover_propane_tanks rest

/-- Whether a raw record is a dict whose type code equals 2. -/
def isTypeTwo (a : PyVal) : Bool :=
  match a with
  | .dict kvs => pyEqInt (pyDictGet kvs (.str (sv "type")) .none) 2
  | _ => false

/-- Whether an Except carries a value. -/
def isOkE {α : Type} : Except PyErr α → Bool
  | .ok _ => true
  | .error _ => false

/-- The int-coerced apparatusId values of the type-2 records of a raw list, in order,
dropping records whose id does not coerce. -/
def rawTypeTwoIds (l : List PyVal) : List Int :=
  l.filterMap
    (fun a =>
      match a with
      | .dict kvs =>
        if pyEqInt (pyDictGet kvs (.str (sv "type")) .none) 2 then
          (pyIntConv (pyDictGet kvs (.str (sv "apparatusId")) .none)).toOption
        else Option.none
      | _ => Option.none)

/-- Whether a property-list entry is shaped so that the props loop accepts it: a
dict whose name value, when truthy, is hashable. -/
def propEntryOk (p : PyVal) : Bool :=
  match p with
  | .dict kvs =>
    let nm := pyDictGet kvs (.str (sv "name")) .none
    !pyTruthy nm || hashablePy nm
  | _ => false

/-- Whether a properties value is shaped so that _props_dict cannot raise: either
falsy (treated as an empty list) or a list of acceptable entries. -/
def propsWellFormed (v : PyVal) : Bool :=
  match v with
  | .list xs => xs.all propEntryOk
  | v => !pyTruthy v

/-- Whether one raw record lets the discovery loop pass it without raising: any
dict record whose type is not 2, or a type-2 dict record with well-formed
properties and an int-coercible apparatusId. -/
def recordOk (a : PyVal) : Bool :=
  match a with
  | .dict kvs =>
    if pyEqInt (pyDictGet kvs (.str (sv "type")) .none) 2 then
      propsWellFormed (pyDictGet kvs (.str (sv "properties")) (.list [])) &&
        isOkE (pyIntConv (pyDictGet kvs (.str (sv "apparatusId")) .none))
    else true
  | _ => false

/-! ## The login state machine (api.py lines 112-263) -/

/-- One HTTP response: status and body text. -/
structure Response where
  status : Nat
  text : List Char
deriving DecidableEq

/-- Outcome of one request at the transport: a response, or an aiohttp
ClientResponseError raised by the client. -/
inductive HttpResult where
  | resp (r : Response)
  | respError (status : Option Nat) (msg : List Char)
deriving DecidableEq

/-- The per-step transport outcomes a run of login is driven by. -/
structure LoginTranscript where
  antiforgery : HttpResult
  signin : HttpResult
  selfAsserted : HttpResult
  confirm : HttpResult
  accountStatus : HttpResult
deriving DecidableEq

/-- The structured failure value of MobileLinkAuthError. -/
structure AuthError where
  code : List Char
  step : List Char
  message : List Char
  status : Option Nat
  hint : Option (List Char)
deriving DecidableEq

/-- The requests login issues, in order, with the data they carry. -/
inductive Request where
  | antiforgery
  | signin (email : List Char)
  | selfAsserted (tx email password : List Char)
  | confirm (csrf tx : List Char)
  | accountStatus
deriving DecidableEq

/-- The token fields stored on the client (set in __init__, assigned at the end of
login). -/
structure ClientState where
  csrf : Option (List Char)
  tx : Option (List Char)
deriving DecidableEq

/-- Result of a login call: the outcome, the client fields after the call, and the
requests issued. -/
structure LoginOutcome where
  result : Except AuthError Unit
  state : ClientState
  requests : List Request

/-- The wrapper the outer except clause builds from a ClientResponseError. -/
def httpError (status : Option Nat) (msg : List Char) : AuthError :=
  { code := sv "http_error", step := sv "aiohttp", message := msg,
    status := status, hint := Option.none }

/-- The hint chain hint or (b2c if b2c else body truncated or None). -/
def hintChain (hint b2c : Option (List Char)) (body : List Char) (n : Nat) :
    Option (List Char) :=
  match hint with
  | some h => some h
  | Option.none =>
    match b2c with
    | some c => some c
    | Option.none => if body.isEmpty then Option.none else some (body.take n)

/-- The hint chain with a literal final fallback instead of the body. -/
def hintChainLit (hint b2c : Option (List Char)) (lit : List Char) : Option (List Char) :=
  match hint with
  | some h => some h
  | Option.none =>
    match b2c with
    | some c => some c
    | Option.none => some lit

/-- Anchored match of the regex for a quoted JSON-like field: the quoted key,
optional whitespace, a colon, optional whitespace, then a quoted non-empty capture. -/
def matchFieldAt (key : List Char) (s : List Char) : Option (List Char) :=
  let pat := '\x22' :: key ++ ['\x22']
  if pat.isPrefixOf s then
    let r1 := (s.drop pat.length).dropWhile isPyWs
    match r1 with
    | ':' :: r2 =>
      let r3 := r2.dropWhile isPyWs
      match r3 with
      | '\x22' :: r4 =>
        let captured := r4.takeWhile (fun c => c != '\x22')
        if captured.isEmpty then Option.none
        else
          match r4.drop captured.length with
          | '\x22' :: _ => some captured
          | _ => Option.none
      | _ => Option.none
    | _ => Option.none
  else Option.none

/-- Leftmost search for the quoted field pattern (re.search). -/
def searchField (key : List Char) : List Char → Option (List Char)
  | [] => Option.none
  | c :: rest =>
    match matchFieldAt key (c :: rest) with
    | some v => some v
    | Option.none => searchField key rest

/-- Models the body of MobileLinkApiClient.login driven by a transcript of
transport outcomes: the outcome with the tokens on success, and the requests
issued in order. The outer except clause wrapping ClientResponseError applies at
every request. -/
def loginCore (email password : List Char) (tr : LoginTranscript) :
    Except AuthError (List Char × List Char) × List Request :=
  let reqs1 := [Request.antiforgery]
  match tr.antiforgery with
  | .respError s m => (.error (httpError s m), reqs1)
  | .resp anti =>
    if 400 ≤ anti.status then
      (.error { code := sv "antiforgery_failed", step := sv "antiforgery",
                message := sv "Failed to obtain antiforgery cookie",
                status := some anti.status,
                hint := if anti.text.isEmpty then Option.none
                        else some (anti.text.take 120) }, reqs1)
    else
      let reqs2 := reqs1 ++ [Request.signin email]
      match tr.signin with
      | .respError s m => (.error (httpError s m), reqs2)
      | .resp r =>
        let html := r.text
        if 400 ≤ r.status then
          if _looks_like_bot_block html then
            (.error { code := sv "bot_block", step := sv "signin_start",
                      message := sv "Mobile Link blocked the request (bot protection / captcha)",
                      status := some r.status,
                      hint := some (sv "Try again later, or login once in the browser from the same network and retry.") },
             reqs2)
          else
            let b2c := _extract_b2c_error html
            let ch := _map_b2c_error_to_code b2c
            (.error { code := if ch.1 == sv "unknown" then sv "signin_start_failed" else ch.1,
                      step := sv "signin_start",
                      message := sv "Failed to start sign-in flow",
                      status := some r.status,
                      hint := hintChain ch.2 b2c html 120 }, reqs2)
        else if _looks_like_bot_block html then
          (.error { code := sv "bot_block", step := sv "signin_start",
                    message := sv "Mobile Link returned a bot-protection / captcha page",
                    status := some r.status,
                    hint := some (sv "This integration cannot solve interactive captchas. Try again later.") },
           reqs2)
        else
          match searchField (sv "csrf") html, searchField (sv "transId") html with
          | some csrf_token, some tx =>
            let reqs3 := reqs2 ++ [Request.selfAsserted tx email password]
            match tr.selfAsserted with
            | .respError s m => (.error (httpError s m), reqs3)
            | .resp sa =>
              let sa_text := sa.text
              let b2c := _extract_b2c_error sa_text
              if 400 ≤ sa.status ∨ b2c.isSome = true then
                let ch := _map_b2c_error_to_code b2c
                let code :=
                  if ch.1 == sv "unknown" &&
                     (sa.status == 400 || sa.status == 401 || sa.status == 403) then
                    sv "invalid_credentials"
                  else ch.1
                (.error { code := if code == sv "unknown" then sv "credential_submit_failed" else code,
                          step := sv "credential_submit",
                          message := sv "Authentication was rejected",
                          status := some sa.status,
                          hint := hintChain ch.2 b2c sa_text 160 }, reqs3)
              else
                let reqs4 := reqs3 ++ [Request.confirm csrf_token tx]
                match tr.confirm with
                | .respError s m => (.error (httpError s m), reqs4)
                | .resp conf =>
                  let conf_text := conf.text
                  if 400 ≤ conf.status then
                    if _looks_like_bot_block conf_text then
                      (.error { code := sv "bot_block", step := sv "confirm",
                                message := sv "Blocked during sign-in confirmation (bot protection)",
                                status := some conf.status, hint := Option.none }, reqs4)
                    else
                      let b2c := _extract_b2c_error conf_text
                      let ch := _map_b2c_error_to_code b2c
                      (.error { code := if ch.1 == sv "unknown" then sv "confirm_failed" else ch.1,
                                step := sv "confirm",
                                message := sv "Failed to complete sign-in confirmation",
                                status := some conf.status,
                                hint := hintChain ch.2 b2c conf_text 160 }, reqs4)
                  else
                    let reqs5 := reqs4 ++ [Request.accountStatus]
                    match tr.accountStatus with
                    | .respError s m => (.error (httpError s m), reqs5)
                    | .resp st =>
                      if st.status ≠ 200 then
                        if _looks_like_bot_block st.text then
                          (.error { code := sv "bot_block", step := sv "account_status",
                                    message := sv "Blocked while verifying session (bot protection)",
                                    status := some st.status, hint := Option.none }, reqs5)
                        else
                          (.error { code := sv "session_not_established",
                                    step := sv "account_status",
                                    message := sv "Login did not establish an authenticated session",
                                    status := some st.status,
                                    hint := if st.text.isEmpty then Option.none
                                            else some (st.text.take 160) }, reqs5)
                      else
                        (.ok (csrf_token, tx), reqs5)
          | _, _ =>
            let b2c := _extract_b2c_error html
            let ch := _map_b2c_error_to_code b2c
            (.error { code := if ch.1 == sv "unknown" then sv "parse_failed" else ch.1,
                      step := sv "parse_b2c",
                      message := sv "Could not parse the Azure B2C login page",
                      status := some r.status,
                      hint := hintChainLit ch.2 b2c (sv "csrf/transId not found") }, reqs2)

/-- Models login end to end: the csrf and transaction id fields are assigned only
when every step succeeded (source lines 254-255); any raise leaves them as they
were. -/
def login (st : ClientState) (email password : List Char) (tr : LoginTranscript) :
    LoginOutcome :=
  match loginCore email password tr with
  | (.ok ct, reqs) =>
    { result := .ok (), state := { csrf := some ct.1, tx := some ct.2 }, requests := reqs }
  | (.error e, reqs) => { result := .error e, state := st, requests := reqs }

/-- Whether a request is the credential-submit POST of step 4. -/
def isCredentialSubmit : Request → Bool
  | .selfAsserted _ _ _ => true
  | _ => false

/-! ## The thin authenticated endpoints (api.py lines 265-281) -/

/-- How a data call can fail: a structured auth failure, a structured API failure,
or an uncaught Python error. -/
inductive CallFailure where
  | authError (e : AuthError)
  | apiError (message : List Char) (status : Option Nat)
  | pyError (e : PyErr)
deriving DecidableEq

/-- Models a Python call of MobileLinkAuthError with a list of positional
arguments: the source __init__ requires exactly the three positionals code, step
and message, so any other arity raises TypeError at the call site. -/
def mkMobileLinkAuthError (args : List (List Char)) : Except PyErr AuthError :=
  match args with
  | [code, step, message] =>
    .ok { code := code, step := step, message := message,
          status := Option.none, hint := Option.none }
  | _ => .error .typeError

/-- Models account_status on a response with the given status and parsed JSON body. -/
def account_status (status : Nat) (body : PyVal) : Except CallFailure PyVal :=
  if status ≠ 200 then
    match mkMobileLinkAuthError [sv "Not authenticated"] with
    | .ok e => .error (.authError e)
    | .error pe => .error (.pyError pe)
  else .ok body

/-- Models list_apparatus on a response with the given status, body text and parsed
JSON body. -/
def list_apparatus (status : Nat) (text : List Char) (body : PyVal) :
    Except CallFailure (List PyVal) :=
  if status = 401 then
    match mkMobileLinkAuthError [sv "Not authenticated"] with
    | .ok e => .error (.authError e)
    | .error pe => .error (.pyError pe)
  else if status ≠ 200 then
    .error (.apiError (sv "Apparatus list failed: HTTP " ++ natDigits status ++
      sv " " ++ text.take 200) Option.none)
  else
    match body with
    | .list xs => .ok xs
    | _ => .error (.apiError (sv "Unexpected apparatus list response shape") Option.none)

/-! ## Concrete sample data used by counterexamples and witnesses -/

/-- A type-2 record with no apparatusId at all. -/
def recNoId : PyVal := .dict [(.str (sv "type"), .int 2)]

/-- A type-2 record whose properties value is a string instead of a list. -/
def recBadProps : PyVal :=
  .dict [(.str (sv "type"), .int 2), (.str (sv "apparatusId"), .int 7),
    (.str (sv "properties"), .str (sv "x"))]

/-- A plain type-2 record with id 7 and no further fields. -/
def rec7 : PyVal := .dict [(.str (sv "type"), .int 2), (.str (sv "apparatusId"), .int 7)]

/-- A plain type-2 record with id 8. -/
def rec8 : PyVal := .dict [(.str (sv "type"), .int 2), (.str (sv "apparatusId"), .int 8)]

/-- A type-2 record with id 9 and a malformed fuel level plus no device sub-object. -/
def rec9BadFuel : PyVal :=
  .dict [(.str (sv "type"), .int 2), (.str (sv "apparatusId"), .int 9),
    (.str (sv "properties"),
      .list [.dict [(.str (sv "name"), .str (sv "FuelLevel")),
        (.str (sv "value"), .str (sv "not-a-number"))]])]

/-- The tank record produced for rec7. -/
def tank7 : PropaneTank :=
  { apparatus_id := 7, name := sv "Tank 7", fuel_level_percent := Option.none,
    last_reading := Option.none, capacity_gallons := Option.none,
    is_connected := Option.none,
    device := ⟨Option.none, Option.none, Option.none, Option.none⟩ }

/-- The tank record produced for rec8. -/
def tank8 : PropaneTank :=
  { apparatus_id := 8, name := sv "Tank 8", fuel_level_percent := Option.none,
    last_reading := Option.none, capacity_gallons := Option.none,
    is_connected := Option.none,
    device := ⟨Option.none, Option.none, Option.none, Option.none⟩ }

/-- A 200 response with an empty body. -/
def respOk : HttpResult := .resp ⟨200, []⟩

/-- A sign-in page body carrying both tokens. -/
def signinTokens : List Char := sv "\x22csrf\x22: \x22AB\x22, \x22transId\x22: \x22CD\x22"

/-- A transcript on which every step succeeds. -/
def okTranscript : LoginTranscript :=
  { antiforgery := respOk, signin := .resp ⟨200, signinTokens⟩,
    selfAsserted := respOk, confirm := respOk, accountStatus := respOk }

/-- A transcript whose step-2 body carries the tokens and the password-reset code,
with status 200. -/
def tr118tokens : LoginTranscript :=
  { okTranscript with signin := .resp ⟨200, signinTokens ++ sv " AADB2C90118"⟩ }

/-- A transcript whose first request raises a ClientResponseError. -/
def trAntiError : LoginTranscript :=
  { okTranscript with antiforgery := .respError (some 599) (sv "boom") }

/-- A transcript whose credential submit comes back 404 with a code-free body. -/
def tr404 : LoginTranscript :=
  { okTranscript with selfAsserted := .resp ⟨404, sv "oops"⟩ }

/-- A transcript whose credential submit comes back 401 with an empty body. -/
def tr401 : LoginTranscript :=
  { okTranscript with selfAsserted := .resp ⟨401, []⟩ }

/-- A transcript whose antiforgery step fails with status 500. -/
def trAnti500 : LoginTranscript :=
  { okTranscript with antiforgery := .resp ⟨500, []⟩ }

/-! ## Helper lemmas -/

theorem containsSub_iff (n h : List Char) :
    containsSub n h = true ↔ ∃ s t, s ++ n ++ t = h := by
  induction h with
  | nil =>
    simp only [containsSub, List.isEmpty_iff]
    constructor
    · rintro rfl
      exact ⟨[], [], rfl⟩
    · rintro ⟨s, t, hst⟩
      rcases List.append_eq_nil.mp hst with ⟨hsn, _⟩
      exact (List.append_eq_nil.mp hsn).2
  | cons c rest ih =>
    simp only [containsSub, Bool.or_eq_true, List.isPrefixOf_iff_prefix, ih]
    constructor
    · rintro (⟨t, ht⟩ | ⟨s, t, rfl⟩)
      · exact ⟨[], t, by simpa using ht⟩
      · exact ⟨c :: s, t, rfl⟩
    · rintro ⟨s, t, hst⟩
      cases s with
      | nil => exact Or.inl ⟨t, by simpa using hst⟩
      | cons a s' =>
        right
        have h2 := hst
        simp only [List.cons_append, List.cons.injEq] at h2
        exact ⟨s', t, h2.2⟩

theorem b2cPre_length : b2cPre.length = 6 := rfl

theorem drop6_append (t : List Char) : (b2cPre ++ t).drop 6 = t := by
  rw [← b2cPre_length]
  exact List.drop_left b2cPre t

theorem b2cHere?_some_iff (s code : List Char) :
    b2cHere? s = some code ↔ isB2CCode code = true ∧ ∃ post, s = code ++ post := by
  constructor
  · intro h
    unfold b2cHere? at h
    by_cases hp : b2cPre.isPrefixOf s
    · rw [if_pos hp] at h
      by_cases hc : (((s.drop 6).take 5).length == 5 && ((s.drop 6).take 5).all Char.isDigit) = true
      · rw [if_pos hc] at h
        have hcode : code = b2cPre ++ (s.drop 6).take 5 := by
          simp only [Option.some.injEq] at h
          exact h.symm
        simp only [Bool.and_eq_true, beq_iff_eq] at hc
        obtain ⟨hlen, hdig⟩ := hc
        rcases List.isPrefixOf_iff_prefix.mp hp with ⟨t, ht⟩
        have hdrop : s.drop 6 = t := by
          rw [← ht]
          exact drop6_append t
        constructor
        · subst hcode
          unfold isB2CCode
          simp only [Bool.and_eq_true, beq_iff_eq]
          refine ⟨⟨?_, ?_⟩, ?_⟩
          · simp [List.length_append, b2cPre_length, hlen]
          · exact List.isPrefixOf_iff_prefix.mpr (List.prefix_append _ _)
          · rw [drop6_append]
            exact hdig
        · refine ⟨t.drop 5, ?_⟩
          rw [hcode, List.append_assoc, ← ht]
          congr 1
          rw [drop6_append]
          exact (List.take_append_drop 5 t).symm
      · rw [if_neg hc] at h
        exact absurd h (by simp)
    · rw [if_neg hp] at h
      exact absurd h (by simp)
  · rintro ⟨hcode, post, rfl⟩
    unfold isB2CCode at hcode
    simp only [Bool.and_eq_true, beq_iff_eq] at hcode
    obtain ⟨⟨hlen, hpre⟩, hdig⟩ := hcode
    rcases List.isPrefixOf_iff_prefix.mp hpre with ⟨u, hu⟩
    have hudrop : code.drop 6 = u := by
      rw [← hu]
      exact drop6_append u
    have hulen : u.length = 5 := by
      have hl := congrArg List.length hu
      simp only [List.length_append, b2cPre_length] at hl
      omega
    unfold b2cHere?
    have hsplit : code ++ post = b2cPre ++ (u ++ post) := by
      rw [← hu, List.append_assoc]
    have hpre2 : b2cPre.isPrefixOf (code ++ post) = true := by
      rw [hsplit]
      exact List.isPrefixOf_iff_prefix.mpr (List.prefix_append _ _)
    rw [if_pos hpre2]
    have hdrop6 : (code ++ post).drop 6 = u ++ post := by
      rw [hsplit]
      exact drop6_append _
    have htake : ((code ++ post).drop 6).take 5 = u := by
      rw [hdrop6]
      exact List.take_left' hulen
    rw [htake]
    have hudig : u.all Char.isDigit = true := by
      rw [← hudrop]
      exact hdig
    rw [if_pos (by simp [hulen, hudig])]
    rw [← hu]

theorem b2cScan_some (t code : List Char) (h : b2cScan t = some code) :
    isB2CCode code = true ∧
      ∃ pre post, t = pre ++ code ++ post ∧
        ∀ pre' code' post', t = pre' ++ code' ++ post' → isB2CCode code' = true →
          pre.length ≤ pre'.length := by
  induction t with
  | nil => exact absurd h (by simp [b2cScan])
  | cons c rest ih =>
    unfold b2cScan at h
    cases hb : b2cHere? (c :: rest) with
    | some v =>
      rw [hb] at h
      have hv : v = code := by simpa using h
      subst hv
      rcases (b2cHere?_some_iff _ _).mp hb with ⟨hcode, post, hdec⟩
      refine ⟨hcode, [], post, by simpa using hdec, ?_⟩
      intro pre' code' post' _ _
      exact Nat.zero_le _
    | none =>
      rw [hb] at h
      rcases ih h with ⟨hcode, pre, post, hdec, hmin⟩
      refine ⟨hcode, c :: pre, post, by simp [hdec], ?_⟩
      intro pre' code' post' heq' hcode'
      cases pre' with
      | nil =>
        exfalso
        have hsome : b2cHere? (c :: rest) = some code' :=
          (b2cHere?_some_iff _ _).mpr ⟨hcode', post', by simpa using heq'⟩
        rw [hsome] at hb
        exact absurd hb (by simp)
      | cons a pre'' =>
        have hrest : rest = pre'' ++ code' ++ post' := by
          have h2 := heq'
          simp only [List.cons_append, List.cons.injEq] at h2
          exact h2.2
        simpa using Nat.succ_le_succ (hmin pre'' code' post' hrest hcode')

theorem b2cScan_none (t : List Char) (h : b2cScan t = Option.none) :
    ∀ pre code post, t = pre ++ code ++ post → isB2CCode code = false := by
  induction t with
  | nil =>
    intro pre code post heq
    rcases List.append_eq_nil.mp heq.symm with ⟨h1, h2⟩
    rcases List.append_eq_nil.mp h1 with ⟨_, rfl⟩
    decide
  | cons c rest ih =>
    unfold b2cScan at h
    cases hb : b2cHere? (c :: rest) with
    | some v => rw [hb] at h; exact absurd h (by simp)
    | none =>
      rw [hb] at h
      intro pre code post heq
      cases pre with
      | nil =>
        cases hct : isB2CCode code with
        | false => rfl
        | true =>
          exfalso
          have hsome : b2cHere? (c :: rest) = some code :=
            (b2cHere?_some_iff _ _).mpr ⟨hct, post, by simpa using heq⟩
          rw [hsome] at hb
          exact absurd hb (by simp)
      | cons a pre' =>
        have hrest : rest = pre' ++ code ++ post := by
          have h2 := heq
          simp only [List.cons_append, List.cons.injEq] at h2
          exact h2.2
        exact ih h pre' code post hrest

theorem extract_eq_scan (t : List Char) : _extract_b2c_error t = b2cScan t := by
  unfold _extract_b2c_error
  by_cases ht : t.isEmpty
  · rw [if_pos ht, List.isEmpty_iff.mp ht]
    rfl
  · rw [if_neg ht]

/-! ## Normalizer helper lemmas -/

theorem propsStep_ok (props : List (PyVal × PyVal)) (p : PyVal)
    (hp : propEntryOk p = true) : ∃ ps, propsStep props p = Except.ok ps := by
  cases p with
  | dict kvs =>
    unfold propsStep
    simp only [pyGetD]
    by_cases ht : pyTruthy (pyDictGet kvs (.str (sv "name")) .none) = true
    · rw [if_pos ht]
      have hh : hashablePy (pyDictGet kvs (.str (sv "name")) .none) = true := by
        simp only [propEntryOk, ht, Bool.not_true, Bool.false_or] at hp
        exact hp
      unfold dictSet
      rw [if_pos hh]
      exact ⟨_, rfl⟩
    · rw [if_neg ht]
      exact ⟨props, rfl⟩
  | none => simp [propEntryOk] at hp
  | bool b => simp [propEntryOk] at hp
  | int n => simp [propEntryOk] at hp
  | num q => simp [propEntryOk] at hp
  | str s => simp [propEntryOk] at hp
  | list xs => simp [propEntryOk] at hp

theorem propsFold_ok (elems : List PyVal) (props : List (PyVal × PyVal))
    (h : elems.all propEntryOk = true) :
    ∃ ps, List.foldlM propsStep props elems = Except.ok ps := by
  induction elems generalizing props with
  | nil => exact ⟨props, rfl⟩
  | cons p rest ih =>
    simp only [List.all_cons, Bool.and_eq_true] at h
    obtain ⟨ps1, h1⟩ := propsStep_ok props p h.1
    rw [List.foldlM_cons, h1]
    have hb : (Except.ok ps1 >>= fun b => List.foldlM propsStep b rest) =
        List.foldlM propsStep ps1 rest := rfl
    rw [hb]
    exact ih ps1 h.2

theorem props_dict_ok (kvs : List (PyVal × PyVal))
    (h : propsWellFormed (pyDictGet kvs (.str (sv "properties")) (.list [])) = true) :
    ∃ ps, _props_dict (.dict kvs) = Except.ok ps := by
  unfold _props_dict
  simp only [pyGetD]
  by_cases ht : pyTruthy (pyDictGet kvs (.str (sv "properties")) (.list [])) = true
  · rw [if_pos ht]
    cases hraw : pyDictGet kvs (.str (sv "properties")) (.list []) with
    | list xs =>
      simp only [pyIter]
      rw [hraw] at h
      exact propsFold_ok xs [] (by simpa [propsWellFormed] using h)
    | none =>
      rw [hraw] at ht
      simp [pyTruthy] at ht
    | bool b =>
      rw [hraw] at h ht
      simp only [propsWellFormed, Bool.not_eq_true'] at h
      rw [h] at ht
      exact absurd ht (by simp)
    | int n =>
      rw [hraw] at h ht
      simp only [propsWellFormed, Bool.not_eq_true'] at h
      rw [h] at ht
      exact absurd ht (by simp)
    | num q =>
      rw [hraw] at h ht
      simp only [propsWellFormed, Bool.not_eq_true'] at h
      rw [h] at ht
      exact absurd ht (by simp)
    | str s =>
      rw [hraw] at h ht
      simp only [propsWellFormed, Bool.not_eq_true'] at h
      rw [h] at ht
      exact absurd ht (by simp)
    | dict kvs2 =>
      rw [hraw] at h ht
      simp only [propsWellFormed, Bool.not_eq_true'] at h
      rw [h] at ht
      exact absurd ht (by simp)
  · rw [if_neg ht]
    exact ⟨[], rfl⟩

theorem tankOf_ok (kvs : List (PyVal × PyVal))
    (hprops : propsWellFormed (pyDictGet kvs (.str (sv "properties")) (.list [])) = true)
    (n : Int)
    (hid : pyIntConv (pyDictGet kvs (.str (sv "apparatusId")) .none) = Except.ok n) :
    ∃ t, tankOf (.dict kvs) = Except.ok t ∧ t.apparatus_id = n := by
  obtain ⟨ps, hps⟩ := props_dict_ok kvs hprops
  unfold tankOf
  rw [hps]
  simp only [pyGetD, hid]
  exact ⟨_, rfl, rfl⟩

theorem tankOf_id (kvs : List (PyVal × PyVal)) (t : PropaneTank)
    (h : tankOf (.dict kvs) = Except.ok t) :
    pyIntConv (pyDictGet kvs (.str (sv "apparatusId")) .none) = Except.ok t.apparatus_id := by
  unfold tankOf at h
  cases hps : _props_dict (.dict kvs) with
  | error e =>
    rw [hps] at h
    exact absurd h (by simp)
  | ok ps =>
    rw [hps] at h
    simp only [pyGetD] at h
    cases hn : pyIntConv (pyDictGet kvs (.str (sv "apparatusId")) .none) with
    | error e =>
      rw [hn] at h
      exact absurd h (by simp)
    | ok n =>
      rw [hn] at h
      simp only [Except.ok.injEq] at h
      rw [← h]

theorem discover_ok_ids (l : List PyVal) (ts : List PropaneTank)
    (h : discover_propane_tanks l = Except.ok ts) :
    ts.map PropaneTank.apparatus_id = rawTypeTwoIds l ∧ ts.length = l.countP isTypeTwo := by
  induction l generalizing ts with
  | nil =>
    obtain rfl : ([] : List PropaneTank) = ts := by
      simpa [discover_propane_tanks] using h
    exact ⟨rfl, rfl⟩
  | cons a rest ih =>
    unfold discover_propane_tanks at h
    split at h
    next e hty => exact absurd h (by simp)
    next ty hty =>
      cases a with
      | dict kvs =>
        have hty' : pyDictGet kvs (.str (sv "type")) .none = ty := by
          have hh := hty
          simp only [pyGetD, Except.ok.injEq] at hh
          exact hh
        by_cases h2 : pyEqInt ty 2 = true
        · rw [if_pos h2] at h
          split at h
          next e htank => exact absurd h (by simp)
          next t htank =>
            split at h
            next e hrest => exact absurd h (by simp)
            next ts' hrest =>
              obtain rfl : t :: ts' = ts := by simpa using h
              obtain ⟨hmap, hlen⟩ := ih ts' hrest
              constructor
              · simp only [List.map_cons, hmap, rawTypeTwoIds, List.filterMap_cons]
                rw [hty', if_pos h2, tankOf_id kvs t htank]
                rfl
              · simp [List.countP_cons, isTypeTwo, hty', h2, hlen]
        · rw [if_neg h2] at h
          obtain ⟨hmap, hlen⟩ := ih ts h
          constructor
          · simp only [hmap, rawTypeTwoIds, List.filterMap_cons]
            rw [hty', if_neg h2]
          · simp [List.countP_cons, isTypeTwo, hty', h2, hlen]
      | none => simp [pyGetD] at hty
      | bool b => simp [pyGetD] at hty
      | int n => simp [pyGetD] at hty
      | num q => simp [pyGetD] at hty
      | str s => simp [pyGetD] at hty
      | list xs => simp [pyGetD] at hty

/-! ## Claim C2 -/

/-- C2 counterexample: discovery does raise on malformed per-record data: a type-2
record with no apparatusId raises TypeError (int of None), and a type-2 record
whose properties value is a string raises AttributeError (iteration yields
characters without a get method). -/
theorem discover_malformed_counterexample :
    discover_propane_tanks [recNoId] = Except.error PyErr.typeError ∧
    discover_propane_tanks [recBadProps] = Except.error PyErr.attributeError := by
  constructor
  · rfl
  · rfl

/-- C2 (amended): discovery never raises and returns one PropaneTank per type-2
record, with the other listed fields degraded, provided every type-2 record has an
int-coercible apparatusId and a well-formed (or absent or falsy) properties list. -/
theorem discover_total_on_coercible_records (l : List PyVal)
    (h : l.all recordOk = true) :
    ∃ ts, discover_propane_tanks l = Except.ok ts ∧
      ts.length = l.countP isTypeTwo ∧
      ts.map PropaneTank.apparatus_id = rawTypeTwoIds l := by
  induction l with
  | nil => exact ⟨[], rfl, rfl, rfl⟩
  | cons a rest ih =>
    simp only [List.all_cons, Bool.and_eq_true] at h
    obtain ⟨ha, hrest⟩ := h
    obtain ⟨ts, hts, hlen, hmap⟩ := ih hrest
    cases a with
    | dict kvs =>
      simp only [recordOk] at ha
      by_cases h2 : pyEqInt (pyDictGet kvs (.str (sv "type")) .none) 2 = true
      · rw [if_pos h2] at ha
        simp only [Bool.and_eq_true] at ha
        obtain ⟨hprops, hid⟩ := ha
        cases hn : pyIntConv (pyDictGet kvs (.str (sv "apparatusId")) .none) with
        | error e =>
          rw [hn] at hid
          simp [isOkE] at hid
        | ok n =>
          obtain ⟨t, htank, htid⟩ := tankOf_ok kvs hprops n hn
          refine ⟨t :: ts, ?_, ?_, ?_⟩
          · unfold discover_propane_tanks
            simp only [pyGetD]
            rw [if_pos h2, htank, hts]
          · simp [List.countP_cons, isTypeTwo, h2, hlen]
          · simp only [List.map_cons, hmap, rawTypeTwoIds, List.filterMap_cons]
            rw [if_pos h2, hn]
            simp [Except.toOption, htid]
      · rw [if_neg h2] at ha
        refine ⟨ts, ?_, ?_, ?_⟩
        · unfold discover_propane_tanks
          simp only [pyGetD]
          rw [if_neg h2]
          exact hts
        · simp [List.countP_cons, isTypeTwo, h2, hlen]
        · simp only [hmap, rawTypeTwoIds, List.filterMap_cons]
          rw [if_neg h2]
    | none => simp [recordOk] at ha
    | bool b => simp [recordOk] at ha
    | int n => simp [recordOk] at ha
    | num q => simp [recordOk] at ha
    | str s => simp [recordOk] at ha
    | list xs => simp [recordOk] at ha

/-- C2 witness: the amended theorem applied to a list with one malformed-fuel
record without a device sub-object and one bare record. -/
theorem discover_total_on_coercible_records_witness :
    ([rec9BadFuel, rec8].all recordOk) = true ∧
    isOkE (discover_propane_tanks [rec9BadFuel, rec8]) = true := by
  refine ⟨by decide, ?_⟩
  obtain ⟨ts, h1, _, _⟩ := discover_total_on_coercible_records [rec9BadFuel, rec8] (by decide)
  rw [h1]
  rfl

/-! ## Claim C5 -/

/-- C5 counterexample: two type-2 records sharing apparatusId 7 produce two tanks
with the same apparatus_id; the discovery result is not pairwise distinct. -/
theorem discover_duplicate_ids_counterexample :
    (discover_propane_tanks [rec7, rec7]).map (List.map PropaneTank.apparatus_id) =
      Except.ok [7, 7] ∧
    ¬ ([7, 7] : List Int).Nodup := by
  exact ⟨rfl, by decide⟩

/-- C5 (amended): the apparatus_id values of a discovery result are pairwise
distinct whenever the int-coerced apparatusId values of the type-2 records of the
raw list are pairwise distinct. -/
theorem discover_ids_nodup (l : List PyVal) (ts : List PropaneTank)
    (h : discover_propane_tanks l = Except.ok ts)
    (hnd : (rawTypeTwoIds l).Nodup) :
    (ts.map PropaneTank.apparatus_id).Nodup := by
  rw [(discover_ok_ids l ts h).1]
  exact hnd

/-- C5 witness: the amended theorem applied to two records with distinct ids. -/
theorem discover_ids_nodup_witness :
    (([tank7, tank8].map PropaneTank.apparatus_id)).Nodup :=
  discover_ids_nodup [rec7, rec8] [tank7, tank8] rfl (by decide)

/-! ## Claim C7 -/

/-- C7 counterexample: on the text AADB2C12345 the extractor returns a match even
though the text contains no code of the claimed format (AADB2C followed by six
digits): the source regex takes five digits. -/
theorem extract_b2c_six_digit_counterexample :
    _extract_b2c_error (sv "AADB2C12345") = some (sv "AADB2C12345") ∧
    b2cScanSpecSix (sv "AADB2C12345") = Option.none ∧
    isB2CCodeSpecSix (sv "AADB2C12345") = false := by
  refine ⟨by decide, by decide, by decide⟩

/-- C7 (amended): _extract_b2c_error returns the first occurrence of a provider
error code of the fixed format, the literal AADB2C followed by five digits, and
returns absent when the text contains no such code. -/
theorem extract_b2c_first_five_digit_code (t : List Char) :
    (∀ code, _extract_b2c_error t = some code →
      isB2CCode code = true ∧
        ∃ pre post, t = pre ++ code ++ post ∧
          ∀ pre' code' post', t = pre' ++ code' ++ post' → isB2CCode code' = true →
            pre.length ≤ pre'.length) ∧
    (_extract_b2c_error t = Option.none →
      ∀ pre code post, t = pre ++ code ++ post → isB2CCode code = false) := by
  rw [extract_eq_scan]
  exact ⟨fun code h => b2cScan_some t code h, fun h => b2cScan_none t h⟩

/-- C7 witness: the amended theorem applied to a concrete text with one code. -/
theorem extract_b2c_first_five_digit_code_witness :
    isB2CCode (sv "AADB2C90118") = true :=
  ((extract_b2c_first_five_digit_code (sv "xAADB2C90118")).1 (sv "AADB2C90118")
    (by decide)).1

/-! ## Claim C8 -/

/-- C8: _looks_like_bot_block is true exactly when the lowercased text contains at
least one of the fixed indicator substrings, and false when it contains none. -/
theorem looks_like_bot_block_characterization (text : List Char) :
    _looks_like_bot_block text = true ↔
      ∃ m ∈ botMarkers, ∃ s t, s ++ m ++ t = pyLower text := by
  simp only [_looks_like_bot_block, List.any_eq_true, containsSub_iff]

/-- C8 witness: the characterization applied to a concrete blocked page. -/
theorem looks_like_bot_block_characterization_witness :
    _looks_like_bot_block (sv "CAPTCHA required") = true :=
  (looks_like_bot_block_characterization (sv "CAPTCHA required")).mpr
    ⟨sv "captcha", by decide, [], sv " required", by decide⟩

/-! ## Claim C9 -/

/-- C9: _map_b2c_error_to_code always returns a code of the fixed taxonomy, never
raises (it is total), maps absent and empty input to the generic unknown code,
maps each table code to its entry, and maps any other code to the generic
b2c_error code with the raw code in the hint. -/
theorem map_b2c_error_total_classification (x : Option (List Char)) :
    (_map_b2c_error_to_code x).1 ∈ classifierCodes ∧
    _map_b2c_error_to_code Option.none = (sv "unknown", Option.none) ∧
    _map_b2c_error_to_code (some []) = (sv "unknown", Option.none) ∧
    (∀ c, x = some c → c ∉ tableCodes → c ≠ [] →
      _map_b2c_error_to_code x = (sv "b2c_error", some (sv "Azure B2C error " ++ c))) ∧
    _map_b2c_error_to_code (some (sv "AADB2C90091")) = (sv "access_denied", Option.none) ∧
    _map_b2c_error_to_code (some (sv "AADB2C90118")) =
      (sv "password_reset_required", some (sv "Mobile Link requested a password reset")) ∧
    _map_b2c_error_to_code (some (sv "AADB2C90080")) =
      (sv "account_locked", some (sv "Account may be locked or disabled")) ∧
    _map_b2c_error_to_code (some (sv "AADB2C90079")) =
      (sv "account_locked", some (sv "Account may be locked or disabled")) ∧
    _map_b2c_error_to_code (some (sv "AADB2C90077")) =
      (sv "account_locked", some (sv "Account may be locked or disabled")) ∧
    _map_b2c_error_to_code (some (sv "AADB2C90055")) = (sv "invalid_credentials", Option.none) := by
  refine ⟨?_, by decide, by decide, ?_, by decide, by decide, by decide, by decide, by decide,
    by decide⟩
  · cases x with
    | none => decide
    | some c =>
      simp only [_map_b2c_error_to_code]
      split_ifs <;> simp [classifierCodes]
  · rintro c rfl hnot hne
    have h91 : c ≠ sv "AADB2C90091" := fun hh => hnot (by rw [hh]; decide)
    have h118 : c ≠ sv "AADB2C90118" := fun hh => hnot (by rw [hh]; decide)
    have h80 : c ≠ sv "AADB2C90080" := fun hh => hnot (by rw [hh]; decide)
    have h79 : c ≠ sv "AADB2C90079" := fun hh => hnot (by rw [hh]; decide)
    have h77 : c ≠ sv "AADB2C90077" := fun hh => hnot (by rw [hh]; decide)
    have h55 : c ≠ sv "AADB2C90055" := fun hh => hnot (by rw [hh]; decide)
    simp only [_map_b2c_error_to_code]
    rw [if_neg (by simp [List.isEmpty_iff, hne]), if_neg (by simp [h91]),
      if_neg (by simp [h118]), if_neg (by simp [h80, h79, h77]), if_neg (by simp [h55])]

/-- C9 witness: the classification applied to a concrete unlisted provider code. -/
theorem map_b2c_error_total_classification_witness :
    _map_b2c_error_to_code (some (sv "AADB2C99999")) =
      (sv "b2c_error", some (sv "Azure B2C error " ++ sv "AADB2C99999")) :=
  (map_b2c_error_total_classification (some (sv "AADB2C99999"))).2.2.2.1
    (sv "AADB2C99999") rfl (by decide) (by decide)

/-! ## Claim C3 -/

/-- C3 counterexample: a run whose step-2 body contains AADB2C90118 together with
the two tokens, at status 200, proceeds all the way: login succeeds and the step-4
credential-submit POST is issued. -/
theorem login_reset_code_counterexample :
    containsSub (sv "AADB2C90118") (signinTokens ++ sv " AADB2C90118") = true ∧
    (login ⟨Option.none, Option.none⟩ (sv "e") (sv "p") tr118tokens).result =
      Except.ok () ∧
    ((login ⟨Option.none, Option.none⟩ (sv "e") (sv "p") tr118tokens).requests.any
      isCredentialSubmit) = true := by
  refine ⟨by decide, rfl, rfl⟩

/-- C3 (amended): when the step-2 response arrives with an error status, its body
is not bot-blocked, and the first provider code extracted from it is AADB2C90118,
login fails with code password_reset_required at step signin_start without issuing
the step-4 credential-submit POST. -/
theorem login_reset_code_at_signin_start (st : ClientState)
    (email password : List Char) (tr : LoginTranscript) (anti r : Response)
    (hanti : tr.antiforgery = .resp anti) (hs : anti.status < 400)
    (hr : tr.signin = .resp r) (hr4 : 400 ≤ r.status)
    (hbot : _looks_like_bot_block r.text = false)
    (hx : _extract_b2c_error r.text = some (sv "AADB2C90118")) :
    (login st email password tr).result =
      Except.error
        { code := sv "password_reset_required", step := sv "signin_start",
          message := sv "Failed to start sign-in flow", status := some r.status,
          hint := some (sv "Mobile Link requested a password reset") } ∧
    (login st email password tr).requests = [Request.antiforgery, Request.signin email] := by
  have hmap : _map_b2c_error_to_code (some (sv "AADB2C90118")) =
      (sv "password_reset_required", some (sv "Mobile Link requested a password reset")) := by
    decide
  simp only [login, loginCore, hanti, hr, Nat.not_le.mpr hs, hr4, hbot, hx, hmap,
    if_true, if_false, ite_true, ite_false, Bool.false_eq_true]
  exact ⟨rfl, rfl⟩

/-- C3 witness: the amended theorem applied to a concrete failing transcript. -/
theorem login_reset_code_at_signin_start_witness :
    (login ⟨Option.none, Option.none⟩ (sv "e") (sv "p")
        { okTranscript with signin := .resp ⟨403, sv "AADB2C90118"⟩ }).result =
      Except.error
        { code := sv "password_reset_required", step := sv "signin_start",
          message := sv "Failed to start sign-in flow", status := some 403,
          hint := some (sv "Mobile Link requested a password reset") } :=
  (login_reset_code_at_signin_start ⟨Option.none, Option.none⟩ (sv "e") (sv "p")
    { okTranscript with signin := .resp ⟨403, sv "AADB2C90118"⟩ } ⟨200, []⟩
    ⟨403, sv "AADB2C90118"⟩ rfl (by decide) rfl (by decide) (by decide) (by decide)).1

/-! ## Claim C4 -/

/-- C4 counterexample: a ClientResponseError at the first step is wrapped with
step aiohttp, not step transport. -/
theorem login_transport_step_counterexample :
    (login ⟨Option.none, Option.none⟩ (sv "e") (sv "p") trAntiError).result =
      Except.error (httpError (some 599) (sv "boom")) ∧
    (httpError (some 599) (sv "boom")).code = sv "http_error" ∧
    (httpError (some 599) (sv "boom")).step = sv "aiohttp" ∧
    (httpError (some 599) (sv "boom")).step ≠ sv "transport" := by
  refine ⟨rfl, rfl, rfl, by decide⟩

/-- C4 (amended): a ClientResponseError raised by the HTTP client at any of the
five requests of login surfaces as AuthError http_error with the step marker
aiohttp (the transport layer), carrying the message and status of the transport
error, independent of the step-specific codes. -/
theorem login_transport_error_wrapped (st : ClientState) (email password : List Char)
    (tr : LoginTranscript) (s : Option Nat) (m : List Char) :
    (tr.antiforgery = .respError s m →
      (login st email password tr).result = Except.error (httpError s m)) ∧
    (∀ anti, tr.antiforgery = .resp anti → anti.status < 400 →
      tr.signin = .respError s m →
      (login st email password tr).result = Except.error (httpError s m)) ∧
    (∀ anti r csrf tx, tr.antiforgery = .resp anti → anti.status < 400 →
      tr.signin = .resp r → r.status < 400 → _looks_like_bot_block r.text = false →
      searchField (sv "csrf") r.text = some csrf →
      searchField (sv "transId") r.text = some tx →
      tr.selfAsserted = .respError s m →
      (login st email password tr).result = Except.error (httpError s m)) ∧
    (∀ anti r csrf tx sa, tr.antiforgery = .resp anti → anti.status < 400 →
      tr.signin = .resp r → r.status < 400 → _looks_like_bot_block r.text = false →
      searchField (sv "csrf") r.text = some csrf →
      searchField (sv "transId") r.text = some tx →
      tr.selfAsserted = .resp sa → sa.status < 400 →
      _extract_b2c_error sa.text = Option.none →
      tr.confirm = .respError s m →
      (login st email password tr).result = Except.error (httpError s m)) ∧
    (∀ anti r csrf tx sa conf, tr.antiforgery = .resp anti → anti.status < 400 →
      tr.signin = .resp r → r.status < 400 → _looks_like_bot_block r.text = false →
      searchField (sv "csrf") r.text = some csrf →
      searchField (sv "transId") r.text = some tx →
      tr.selfAsserted = .resp sa → sa.status < 400 →
      _extract_b2c_error sa.text = Option.none →
      tr.confirm = .resp conf → conf.status < 400 →
      tr.accountStatus = .respError s m →
      (login st email password tr).result = Except.error (httpError s m)) := by
  refine ⟨?_, ?_, ?_, ?_, ?_⟩
  · intro h1
    simp [login, loginCore, h1]
  · intro anti h1 h2 h3
    simp [login, loginCore, h1, h3, Nat.not_le.mpr h2]
  · intro anti r csrf tx h1 h2 h3 h4 h5 h6 h7 h8
    simp [login, loginCore, h1, h3, h5, h6, h7, h8, Nat.not_le.mpr h2, Nat.not_le.mpr h4]
  · intro anti r csrf tx sa h1 h2 h3 h4 h5 h6 h7 h8 h9 h10 h11
    simp [login, loginCore, h1, h3, h5, h6, h7, h8, h10, h11,
      Nat.not_le.mpr h2, Nat.not_le.mpr h4, Nat.not_le.mpr h9]
  · intro anti r csrf tx sa conf h1 h2 h3 h4 h5 h6 h7 h8 h9 h10 h11 h12 h13
    simp [login, loginCore, h1, h3, h5, h6, h7, h8, h10, h11, h13,
      Nat.not_le.mpr h2, Nat.not_le.mpr h4, Nat.not_le.mpr h9, Nat.not_le.mpr h12]

/-- C4 witness: the wrapping applied to a transport error at the first request. -/
theorem login_transport_error_wrapped_witness :
    (login ⟨Option.none, Option.none⟩ (sv "e") (sv "p") trAntiError).result =
      Except.error (httpError (some 599) (sv "boom")) :=
  (login_transport_error_wrapped ⟨Option.none, Option.none⟩ (sv "e") (sv "p")
    trAntiError (some 599) (sv "boom")).1 rfl

/-! ## Claim C6 -/

/-- C6 counterexample: a credential-submit response with the 4xx status 404 and no
extractable provider code fails with credential_submit_failed, not
invalid_credentials (the source defaults only the statuses 400, 401, 403). -/
theorem login_credential_4xx_counterexample :
    (login ⟨Option.none, Option.none⟩ (sv "e") (sv "p") tr404).result =
      Except.error
        { code := sv "credential_submit_failed", step := sv "credential_submit",
          message := sv "Authentication was rejected", status := some 404,
          hint := some (sv "oops") } ∧
    sv "credential_submit_failed" ≠ sv "invalid_credentials" := by
  refine ⟨rfl, by decide⟩

/-- C6 (amended): at the credential-submit step, a response with status 400, 401
or 403 whose body contains no extractable provider code fails with AuthError code
invalid_credentials. -/
theorem login_credential_submit_default (st : ClientState)
    (email password : List Char) (tr : LoginTranscript) (anti r sa : Response)
    (csrf tx : List Char)
    (hanti : tr.antiforgery = .resp anti) (hs : anti.status < 400)
    (hr : tr.signin = .resp r) (hr4 : r.status < 400)
    (hbot : _looks_like_bot_block r.text = false)
    (hcs : searchField (sv "csrf") r.text = some csrf)
    (htx : searchField (sv "transId") r.text = some tx)
    (hsa : tr.selfAsserted = .resp sa)
    (hx : _extract_b2c_error sa.text = Option.none)
    (h4xx : sa.status = 400 ∨ sa.status = 401 ∨ sa.status = 403) :
    (login st email password tr).result =
      Except.error
        { code := sv "invalid_credentials", step := sv "credential_submit",
          message := sv "Authentication was rejected", status := some sa.status,
          hint := hintChain Option.none Option.none sa.text 160 } := by
  rcases h4xx with h4 | h4 | h4 <;>
    simp [login, loginCore, hanti, hr, hsa, Nat.not_le.mpr hs, Nat.not_le.mpr hr4,
      hbot, hcs, htx, hx, h4, _map_b2c_error_to_code] <;>
    decide

/-- C6 witness: the default applied to a concrete 401 with an empty body. -/
theorem login_credential_submit_default_witness :
    (login ⟨Option.none, Option.none⟩ (sv "e") (sv "p") tr401).result =
      Except.error
        { code := sv "invalid_credentials", step := sv "credential_submit",
          message := sv "Authentication was rejected", status := some 401,
          hint := Option.none } := by
  have h := login_credential_submit_default ⟨Option.none, Option.none⟩ (sv "e") (sv "p")
    tr401 ⟨200, []⟩ ⟨200, signinTokens⟩ ⟨401, []⟩ (sv "AB") (sv "CD")
    rfl (by decide) rfl (by decide) (by decide) (by decide) (by decide) rfl (by decide)
    (Or.inr (Or.inl rfl))
  simpa [hintChain] using h

/-! ## Claim C10 -/

set_option maxHeartbeats 4000000 in
theorem loginCore_ok_shape (email password : List Char) (tr : LoginTranscript)
    (c t : List Char) (reqs : List Request)
    (h : loginCore email password tr = (Except.ok (c, t), reqs)) :
    reqs = [Request.antiforgery, Request.signin email,
      Request.selfAsserted t email password, Request.confirm c t,
      Request.accountStatus] := by
  unfold loginCore at h
  dsimp only at h
  repeat' split at h
  all_goals simp only [Prod.mk.injEq, Except.ok.injEq, Except.error.injEq,
    reduceCtorEq, false_and, and_false] at h
  obtain ⟨⟨rfl, rfl⟩, rfl⟩ := h
  rfl

/-- C10: a failed login leaves the stored csrf and tx fields exactly as they were,
and a successful login stores both tokens, having issued all five requests of the
six-step handshake including session verification. -/
theorem login_state_frame (st : ClientState) (email password : List Char)
    (tr : LoginTranscript) :
    (∀ e, (login st email password tr).result = Except.error e →
      (login st email password tr).state = st) ∧
    ((login st email password tr).result = Except.ok () →
      ∃ c t, (login st email password tr).state = ⟨some c, some t⟩ ∧
        (login st email password tr).requests =
          [Request.antiforgery, Request.signin email,
           Request.selfAsserted t email password, Request.confirm c t,
           Request.accountStatus]) := by
  cases hlc : loginCore email password tr with
  | mk res reqs =>
    cases res with
    | error e =>
      refine ⟨fun e' _ => ?_, fun hok => ?_⟩
      · simp [login, hlc]
      · rw [login, hlc] at hok
        exact absurd hok (by simp)
    | ok ct =>
      refine ⟨fun e' herr => ?_, fun _ => ?_⟩
      · rw [login, hlc] at herr
        exact absurd herr (by simp)
      · refine ⟨ct.1, ct.2, by simp [login, hlc], ?_⟩
        have hreq := loginCore_ok_shape email password tr ct.1 ct.2 reqs (by rw [hlc])
        simp [login, hlc, hreq]

/-- C10 witness: the frame property applied to a concrete failed run. -/
theorem login_state_frame_witness :
    (login ⟨some (sv "X"), Option.none⟩ (sv "e") (sv "p") trAnti500).state =
      ⟨some (sv "X"), Option.none⟩ :=
  (login_state_frame ⟨some (sv "X"), Option.none⟩ (sv "e") (sv "p") trAnti500).1
    { code := sv "antiforgery_failed", step := sv "antiforgery",
      message := sv "Failed to obtain antiforgery cookie", status := some 500,
      hint := Option.none } rfl

/-! ## Claim C1 -/

/-- C1: on a non-200 account_status response and on a 401 list_apparatus response
the code does not produce a structured AuthError at all: the one-argument call of
the three-positional-argument MobileLinkAuthError raises TypeError. -/
theorem auth_endpoints_raise_typeerror (status : Nat) (text : List Char) (body : PyVal) :
    (status ≠ 200 →
      account_status status body = Except.error (CallFailure.pyError PyErr.typeError)) ∧
    list_apparatus 401 text body = Except.error (CallFailure.pyError PyErr.typeError) := by
  constructor
  · intro h
    unfold account_status
    rw [if_pos h]
    rfl
  · rfl

/-- C1 witness: the TypeError evaluated at a concrete 401 response. -/
theorem auth_endpoints_raise_typeerror_witness :
    account_status 401 PyVal.none = Except.error (CallFailure.pyError PyErr.typeError) :=
  (auth_endpoints_raise_typeerror 401 [] PyVal.none).1 (by decide)

end MobileLink
